import Mathlib

/-!
Shallow embedding of the algorithmic core of the tally-thermal-app
repository: `src/parseTallyXML.js` (document extractor) and
`src/generateEscPosCommands.js` (printer encoder).  JS runtime
primitives (`parseFloat`, `toFixed`, `DOMParser` results, string
methods) are modelled explicitly.  JS numbers are modelled as
`Option Dec` (exact decimal fractions, `none` playing NaN); the
browser's DOM parser is an oracle parameter of type `String → XNode`.
-/

namespace Tally

/-- An exact decimal fraction `m / 10 ^ e`.  Every number the modelled
pipeline manipulates is produced by `parseFloat` on a decimal literal
and transformed by sums, negation, absolute value and powers of ten, so
this representation is exact for it (the source's IEEE doubles
introduce only rounding noise that none of the claims exercise). -/
structure Dec where
  m : Int
  e : Nat
deriving DecidableEq

/-- The rational value denoted by a `Dec`. -/
def Dec.val (d : Dec) : ℚ := (d.m : ℚ) / (10 : ℚ) ^ d.e

/-- Exact addition of decimal fractions. -/
def Dec.add (a b : Dec) : Dec :=
  ⟨a.m * 10 ^ (max a.e b.e - a.e) + b.m * 10 ^ (max a.e b.e - b.e), max a.e b.e⟩

/-- Negation. -/
def Dec.neg (d : Dec) : Dec := ⟨-d.m, d.e⟩

/-- The `Math.abs` on the representation. -/
def Dec.abs (d : Dec) : Dec := ⟨|d.m|, d.e⟩

/-- Multiplication by `10 ^ k` for a signed `k` (float-literal exponent). -/
def Dec.scale10 (d : Dec) : Int → Dec
  | .ofNat n => ⟨d.m * 10 ^ n, d.e⟩
  | .negSucc n => ⟨d.m, d.e + (n + 1)⟩

instance : OfNat Dec 0 := ⟨⟨0, 0⟩⟩

/-- JS number: `none` models NaN (no modelled code path produces an
infinity). -/
abbrev JFloat := Option Dec

/-- JS `Math.abs`, NaN-propagating. -/
def jsAbs : JFloat → JFloat
  | none => none
  | some d => some d.abs

/-- JS `+` on numbers, NaN-propagating. -/
def jsAdd : JFloat → JFloat → JFloat
  | some a, some b => some (a.add b)
  | _, _ => none

/-- JS truthiness of a number: NaN and 0 are falsy (the value of a
`Dec` is 0 exactly when its numerator is). -/
def jsTruthy : JFloat → Bool
  | none => false
  | some d => d.m != 0

/-- Numeric value of a list of decimal digit characters, most
significant first. -/
def digitsToNat (l : List Char) : Nat :=
  l.foldl (fun acc c => acc * 10 + (c.toNat - '0'.toNat)) 0

/-- Signed digit sequence after `e`/`E` in a JS float literal; a
malformed exponent is ignored (`parseFloat` takes the longest valid
literal prefix). -/
def applyExpSigned (d : Dec) (l : List Char) : Dec :=
  match l with
  | '-' :: r =>
    if (r.takeWhile Char.isDigit).isEmpty then d
    else d.scale10 (-(digitsToNat (r.takeWhile Char.isDigit) : Int))
  | '+' :: r =>
    if (r.takeWhile Char.isDigit).isEmpty then d
    else d.scale10 (digitsToNat (r.takeWhile Char.isDigit))
  | r =>
    if (r.takeWhile Char.isDigit).isEmpty then d
    else d.scale10 (digitsToNat (r.takeWhile Char.isDigit))

/-- Optional exponent suffix of a JS float literal. -/
def applyExp (d : Dec) : List Char → Dec
  | 'e' :: rest => applyExpSigned d rest
  | 'E' :: rest => applyExpSigned d rest
  | _ => d

/-- Unsigned JS float literal prefix: digits, optional `.` fraction,
optional exponent; `none` (NaN) when no mantissa digit is present. -/
def parseUnsigned (l : List Char) : Option Dec :=
  let intDigits := l.takeWhile Char.isDigit
  let rest1 := l.dropWhile Char.isDigit
  match rest1 with
  | '.' :: rest2 =>
    let fracDigits := rest2.takeWhile Char.isDigit
    if intDigits.isEmpty && fracDigits.isEmpty then none
    else
      some (applyExp
        ⟨(digitsToNat intDigits : Int) * 10 ^ fracDigits.length +
          (digitsToNat fracDigits : Int), fracDigits.length⟩
        (rest2.dropWhile Char.isDigit))
  | _ =>
    if intDigits.isEmpty then none
    else some (applyExp ⟨(digitsToNat intDigits : Int), 0⟩ rest1)

/-- JS `parseFloat`: skip leading whitespace, optional sign, then the
longest decimal-literal prefix; `none` models NaN.  (`parseFloat` also
accepts the `Infinity` literal; that infinite result is outside `Dec`,
so the one consumer that only asks whether the result is NaN tests it
separately, in `jsParseFloatIsNaN`.) -/
def jsParseFloat (s : String) : JFloat :=
  match s.data.dropWhile Char.isWhitespace with
  | '-' :: rest => (parseUnsigned rest).map Dec.neg
  | '+' :: rest => parseUnsigned rest
  | l => parseUnsigned l

/-- Models `isNaN(parseFloat(s))`: false when `parseFloat` yields a
finite number, and also false when the whitespace-skipped, optionally
signed input starts with the `Infinity` literal (an infinity is not
NaN). -/
def jsParseFloatIsNaN (s : String) : Bool :=
  match jsParseFloat s with
  | some _ => false
  | none =>
    let l := s.data.dropWhile Char.isWhitespace
    let l2 := match l with
      | '-' :: rest => rest
      | '+' :: rest => rest
      | _ => l
    !(List.isPrefixOf "Infinity".data l2)

/-- The hundredths integer `⌊100 * |val d| + 1 / 2⌋` selected by the
ECMAScript `toFixed(2)` algorithm for the magnitude (nearest, ties
toward the larger magnitude).  The model decides ties on the exact
decimal literal; the program decides them on the IEEE double it parsed,
and the two agree whenever the literal is farther from a half-hundredth
than the double's representation error — as every concrete input
exercised in this file is. -/
def jsRound2Mag (d : Dec) : Nat := (200 * d.m.natAbs + 10 ^ d.e) / (2 * 10 ^ d.e)

/-- Two-character decimal rendering of `k % 100`. -/
def pad2 (k : Nat) : List Char := [Nat.digitChar (k / 10), Nat.digitChar (k % 10)]

/-- Decimal digits of a natural number, most significant first; the
fuel argument (always called with at least `n + 1`) only forces
structural termination. -/
def natToDigitsAux : Nat → Nat → List Char
  | 0, _ => []
  | fuel + 1, n =>
    if n < 10 then [Nat.digitChar n]
    else natToDigitsAux fuel (n / 10) ++ [Nat.digitChar (n % 10)]

/-- Decimal digits of a natural number, most significant first. -/
def natToDigits (n : Nat) : List Char := natToDigitsAux (n + 1) n

/-- The `d.toFixed(2)` per the ECMAScript algorithm: a minus sign when
the value is negative (a tiny negative value therefore renders as
`"-0.00"`, exactly as the source does), then the rounded magnitude with
exactly two fraction digits. -/
def toFixed2Q (d : Dec) : String :=
  (if d.m < 0 then "-" else "") ++
    String.mk (natToDigits (jsRound2Mag d / 100)) ++ "." ++
    String.mk (pad2 (jsRound2Mag d % 100))

/-- JS `x.toFixed(2)`: NaN renders as `"NaN"`. -/
def jsToFixed2 : JFloat → String
  | none => "NaN"
  | some d => toFixed2Q d

/-- JS `s.substring(0, n)` (the model counts characters). -/
def strTake (s : String) (n : Nat) : String := String.mk (s.data.take n)

/-- JS `s.substring(n)`. -/
def strDrop (s : String) (n : Nat) : String := String.mk (s.data.drop n)

/-- JS `s.padEnd(n)` with spaces. -/
def padEnd (s : String) (n : Nat) : String :=
  s ++ String.mk (List.replicate (n - s.data.length) ' ')

/-- JS `s.padStart(n)` with spaces. -/
def padStart (s : String) (n : Nat) : String :=
  String.mk (List.replicate (n - s.data.length) ' ') ++ s

/-- JS `s.repeat(n)`. -/
def strRepeat (s : String) (n : Nat) : String := String.join (List.replicate n s)

/-- JS `s.toUpperCase()` (ASCII-faithful). -/
def jsToUpperCase (s : String) : String := String.mk (s.data.map Char.toUpper)

/-- JS `s.trim()`: strip leading and trailing whitespace. -/
def jsTrim (s : String) : String :=
  String.mk (((s.data.dropWhile Char.isWhitespace).reverse.dropWhile
    Char.isWhitespace).reverse)

/-- JS `s.split(sep)` for a non-empty separator, on character lists.
The fuel argument (always called with the list length) only forces
structural termination; every step consumes at least one character. -/
def jsSplitAux (sep : List Char) : Nat → List Char → List (List Char)
  | _, [] => [[]]
  | 0, l => [l]
  | fuel + 1, c :: rest =>
    if sep.isPrefixOf (c :: rest) && !sep.isEmpty then
      [] :: jsSplitAux sep fuel ((c :: rest).drop sep.length)
    else
      match jsSplitAux sep fuel rest with
      | [] => [[c]]
      | t :: ts => (c :: t) :: ts

/-- JS `s.split(sep)` for a non-empty separator string. -/
def jsSplit (sep : String) (s : String) : List String :=
  (jsSplitAux sep.data s.data.length s.data).map String.mk

/-- JS `array.join(sep)`. -/
def jsJoin (sep : String) : List String → String
  | [] => ""
  | [x] => x
  | x :: xs => x ++ sep ++ jsJoin sep xs

/-- Whether `pat` occurs as a contiguous sublist of the second list. -/
def containsSub (pat : List Char) : List Char → Bool
  | [] => pat.isEmpty
  | c :: t => pat.isPrefixOf (c :: t) || containsSub pat t

/-- JS `s.includes(pat)`. -/
def jsIncludes (s pat : String) : Bool := containsSub pat.data s.data

/-- JS `String(x)` for an optionally-present string property: reading an
absent property gives `undefined`, and `String(undefined)` is the
literal text `"undefined"`. -/
def jsToString : Option String → String
  | none => "undefined"
  | some s => s

/-- JS `a || b` on strings: the empty string is falsy. -/
def jsOrS (a b : String) : String := if a = "" then b else a

/-- A DOM node as delivered by the browser's `DOMParser`. -/
inductive XNode where
  | text (s : String)
  | elem (tag : String) (children : List XNode)

mutual

/-- DOM `textContent`: concatenation of all text descendants. -/
def textContent : XNode → String
  | .text s => s
  | .elem _ cs => textContentList cs

/-- The `textContent` of a list of siblings. -/
def textContentList : List XNode → String
  | [] => ""
  | n :: ns => textContent n ++ textContentList ns

end

mutual

/-- Descendants in document (preorder) order, the node itself excluded. -/
def descendants : XNode → List XNode
  | .text _ => []
  | .elem _ cs => descList cs

/-- Descendants-with-selves of a sibling list, in document order. -/
def descList : List XNode → List XNode
  | [] => []
  | n :: ns => n :: (descendants n ++ descList ns)

end

/-- Whether a node is an element with the given tag. -/
def tagIs (tag : String) : XNode → Bool
  | .elem t _ => t == tag
  | .text _ => false

/-- DOM `node.querySelectorAll(tag)` for a plain tag selector. -/
def querySelectorAll (tag : String) (n : XNode) : List XNode :=
  (descendants n).filter (tagIs tag)

/-- DOM `node.querySelector(tag)`. -/
def querySelector (tag : String) (n : XNode) : Option XNode :=
  (querySelectorAll tag n).head?

mutual

/-- DOM `node.querySelectorAll("PTAG > CTAG")`: descendant elements with
tag `ctag` whose parent element has tag `ptag`, document order. -/
def selChild (ptag ctag : String) : XNode → List XNode
  | .text _ => []
  | .elem t cs => selChildList ptag ctag t cs

/-- Helper of `selChild` walking a sibling list under a known parent tag. -/
def selChildList (ptag ctag parentTag : String) : List XNode → List XNode
  | [] => []
  | c :: rest =>
    (if parentTag == ptag && tagIs ctag c then [c] else []) ++
      selChild ptag ctag c ++ selChildList ptag ctag parentTag rest

end

/-- The extractor's `get` helper: trimmed `textContent` of the first
matching descendant, or `""`. -/
def getS (tag : String) (node : XNode) : String :=
  match querySelector tag node with
  | none => ""
  | some n => jsTrim (textContent n)

/-- The `parseQty` from src/parseTallyXML.js: first space-separated token of
the trimmed quantity string, `"0"` when it does not parse as a number. -/
def parseQty (qtyStr : String) : String :=
  let q := (jsSplit " " (jsTrim qtyStr)).headD ""
  if jsParseFloatIsNaN q then "0" else q

/-- An extracted line item.  `sNo` is `Option` because the extractor
builds the object without that property. -/
structure Item where
  sNo : Option String
  name : String
  qty : String
  rate : String
  amount : String
deriving DecidableEq

structure Company where
  name : String
  gstin : String
deriving DecidableEq

structure OrderInfo where
  number : String
  date : String
  user : String
deriving DecidableEq

structure Party where
  name : String
  address : String
  gstin : String
deriving DecidableEq

structure Totals where
  subtotal : String
  igst : String
  cgst : String
  sgst : String
  total : String
deriving DecidableEq

/-- The canonical Order Document produced by the extractor. -/
structure OrderDoc where
  heading : String
  company : Company
  order : OrderInfo
  party : Party
  items : List Item
  totals : Totals
  narration : String
deriving DecidableEq

/-- The `parseItems(tag)` from src/parseTallyXML.js. -/
def parseItems (voucher : XNode) (tag : String) : List Item :=
  (querySelectorAll tag voucher).map (fun el =>
    { sNo := none
      name := getS "STOCKITEMNAME" el
      qty := parseQty (getS "ACTUALQTY" el)
      rate := jsToFixed2 (
        let r := (jsSplit "/" (getS "RATE" el)).headD ""
        if r = "" then some 0 else jsParseFloat r)
      amount := jsToFixed2 (jsAbs (
        let a := getS "AMOUNT" el
        if a = "" then some 0 else jsParseFloat a)) })

/-- The `findAmount` from src/parseTallyXML.js: the first ledger entry whose
`LEDGERNAME` equals `ledgerName`; its raw (untrimmed) `AMOUNT` text, the
empty/absent case replaced by `0` before `parseFloat`. -/
def findAmount (ledgerEntries : List XNode) (ledgerName : String) : JFloat :=
  match ledgerEntries.find? (fun n => getS "LEDGERNAME" n == ledgerName) with
  | none => some 0
  | some e =>
    match querySelector "AMOUNT" e with
    | none => some 0
    | some a => if textContent a = "" then some 0 else jsParseFloat (textContent a)

/-- Heading classification of src/src/parseTallyXML.js.  Note: this copy
has no `"SALES"` → `SALES INVOICE` branch. -/
def headingOf (voucherType : String) : String :=
  if jsIncludes voucherType "SALES ORDER" then "SALES ORDER"
  else if jsIncludes voucherType "MATERIAL OUT" || jsIncludes voucherType "DELIVERY" then
    "MATERIAL CHALLAN"
  else "DOCUMENT"

/-- Heading classification of the variant copy of the same function in
src/unnamed/part_002, which adds the general-sales branch. -/
def headingOfPart002 (voucherType : String) : String :=
  if jsIncludes voucherType "SALES ORDER" then "SALES ORDER"
  else if jsIncludes voucherType "MATERIAL OUT" || jsIncludes voucherType "DELIVERY" then
    "MATERIAL CHALLAN"
  else if jsIncludes voucherType "SALES" then "SALES INVOICE"
  else "DOCUMENT"

/-- The `formatDate`: `"YYYYMMDD"` → `"DD-MM-YYYY"`, empty stays empty. -/
def formatDate (d : String) : String :=
  if d = "" then ""
  else strTake (strDrop d 6) 2 ++ "-" ++ strTake (strDrop d 4) 2 ++ "-" ++ strTake d 4

/-- The voucher-scoped field extraction of `parseTallyXML` (the function
body once the `VOUCHER` element has been found). -/
def buildOrder (xmlDoc voucher : XNode) : OrderDoc :=
  let company := match querySelector "SVCURRENTCOMPANY" xmlDoc with
    | none => ""
    | some n => jsTrim (textContent n)
  let address := jsJoin "\n"
    ((selChild "BASICBUYERADDRESS.LIST" "BASICBUYERADDRESS" voucher).map
      (fun a => jsTrim (textContent a)))
  let items := parseItems voucher "ALLINVENTORYENTRIES.LIST" ++
    parseItems voucher "INVENTORYENTRIESIN.LIST" ++
    parseItems voucher "INVENTORYENTRIESOUT.LIST"
  let subtotal := items.foldl (fun sum i => jsAdd sum (jsParseFloat i.amount)) (some 0)
  let ledgerEntries := querySelectorAll "LEDGERENTRIES.LIST" voucher
  let igst := findAmount ledgerEntries "IGST"
  let cgst := findAmount ledgerEntries "CGST"
  let sgst := if jsTruthy (findAmount ledgerEntries "SGST") then
      findAmount ledgerEntries "SGST"
    else findAmount ledgerEntries "SGST/UTGST"
  let total := match ledgerEntries.find? (fun n => getS "ISPARTYLEDGER" n == "Yes") with
    | some e => jsToFixed2 (jsAbs (
        if getS "AMOUNT" e = "" then some 0 else jsParseFloat (getS "AMOUNT" e)))
    | none => jsToFixed2 subtotal
  { heading := headingOf (jsToUpperCase (getS "VOUCHERTYPENAME" voucher))
    company := { name := company, gstin := getS "CMPGSTIN" voucher }
    order := { number := getS "VOUCHERNUMBER" voucher
               date := formatDate (getS "DATE" voucher)
               user := getS "ENTEREDBY" voucher }
    party := { name := getS "PARTYNAME" voucher
               address := address
               gstin := getS "PARTYGSTIN" voucher }
    items := items
    totals := { subtotal := jsToFixed2 subtotal
                igst := jsToFixed2 igst
                cgst := jsToFixed2 cgst
                sgst := jsToFixed2 sgst
                total := total }
    narration := getS "NARRATION" voucher }

/-- The `&#4;` pre-cleanup applied before the XML parse. -/
def cleanXml (s : String) : String := s.replace "&#4;" ""

/-- The `parsererror` probe on the `DOMParser` result. -/
def hasParserError (doc : XNode) : Bool := (querySelector "parsererror" doc).isSome

/-- The `parseTallyXML(xmlString)`.  The browser's
`DOMParser.parseFromString` is the oracle parameter `dom`; the two
`throw` sites are the only exceptions in the function body and the
top-level catch converts them into `null` (here `none`). -/
def parseTallyXML (dom : String → XNode) (xmlString : String) : Option OrderDoc :=
  let xmlDoc := dom (cleanXml xmlString)
  if hasParserError xmlDoc then none
  else
    match querySelector "VOUCHER" xmlDoc with
    | none => none
    | some voucher => some (buildOrder xmlDoc voucher)

/-! Section: Printer encoder: src/generateEscPosCommands.js -/

/-- The `encodeText`: currency-glyph substitution then UTF-8 bytes
(`TextEncoder`). -/
def encodeText (t : String) : List Nat :=
  ((t.replace "₹" "Rs. ").toUTF8.data.toList.map (fun b => b.toNat))

/-- The print settings fields the encoder reads. -/
structure Settings where
  headerAlignment : String
  logoUrl : String
  lineSeparator : String
deriving DecidableEq

def SNO_WIDTH : Nat := 3
def ITEM_NAME_COL_WIDTH : Nat := 20
def QTY_RATE_PART_WIDTH : Nat := 10
def AMOUNT_COL_WIDTH : Nat := 8
def HEADER_LINE_SPACING : Nat := 3

/-- The `SNO_WIDTH + ITEM_NAME_COL_WIDTH + QTY_RATE_PART_WIDTH +
AMOUNT_COL_WIDTH + HEADER_LINE_SPACING` = 44. -/
def CALCULATED_TOTAL_PRINT_WIDTH : Nat :=
  SNO_WIDTH + ITEM_NAME_COL_WIDTH + QTY_RATE_PART_WIDTH + AMOUNT_COL_WIDTH +
    HEADER_LINE_SPACING

/-- The `ESC a n`. -/
def setAlignmentB (alignment : String) : List Nat :=
  [0x1B, 0x61, if alignment = "center" then 0x01 else if alignment = "right" then 0x02 else 0x00]

/-- The `ESC E n`. -/
def setBoldB (enable : Bool) : List Nat := [0x1B, 0x45, if enable then 0x01 else 0x00]

/-- The `ESC ! n`. -/
def setDoubleB (enable : Bool) : List Nat := [0x1B, 0x21, if enable then 0x30 else 0x00]

/-- The `printLine`: encoded text plus a line feed. -/
def printLineB (text : String) : List Nat := encodeText text ++ [0x0A]

/-- The `printSeparator`. -/
def printSeparatorB (c : String) (width : Nat) : List Nat :=
  printLineB (strRepeat c width)

/-- The hard character-count wrapping loop
(`substring(0, w)` / `substring(w)` until empty).  The fuel argument
(always called with the list length) only forces structural
termination; the encoder calls this with `w = ITEM_NAME_COL_WIDTH` and
`w = CALCULATED_TOTAL_PRINT_WIDTH`, and for `w ≥ 1` every step consumes
at least one character. -/
def chunksOfAux (w : Nat) : Nat → List Char → List (List Char)
  | _, [] => []
  | 0, l => [l]
  | fuel + 1, c :: cs => ((c :: cs).take w) :: chunksOfAux w fuel ((c :: cs).drop w)

/-- Character-count chunks of width `w` (the JS wrapping loop). -/
def chunksOf (w : Nat) (l : List Char) : List (List Char) := chunksOfAux w l.length l

/-- The name-column lines printed for one item: the primary line with
the (stringified) serial number, then — when the name overflows the
column — hard-wrapped continuation lines indented by `SNO_WIDTH + 1`
spaces. -/
def itemNameLines (it : Item) : List String :=
  let sNo := padEnd (jsToString it.sNo) SNO_WIDTH
  let line1 := sNo ++ " " ++ strTake it.name ITEM_NAME_COL_WIDTH
  let conts :=
    if ITEM_NAME_COL_WIDTH < it.name.data.length then
      (chunksOf ITEM_NAME_COL_WIDTH (it.name.data.drop ITEM_NAME_COL_WIDTH)).map
        (fun c => String.mk (List.replicate (SNO_WIDTH + 1) ' ') ++ String.mk c)
    else []
  line1 :: conts

/-- The quantity/rate/amount summary line of one item. -/
def itemDetailLine (it : Item) : String :=
  let itemDetailIndent := String.mk (List.replicate (SNO_WIDTH + 1) ' ')
  let qtyRatePart := it.qty ++ " x " ++ it.rate
  let availableSpaceAfterIndent : Int :=
    (CALCULATED_TOTAL_PRINT_WIDTH : Int) - (SNO_WIDTH + 1 : Nat)
  let qtyRateDisplay :=
    let q := padEnd qtyRatePart QTY_RATE_PART_WIDTH
    if QTY_RATE_PART_WIDTH < q.data.length then strTake q QTY_RATE_PART_WIDTH else q
  let amountPadding : Int :=
    availableSpaceAfterIndent - (QTY_RATE_PART_WIDTH : Int) - 1 - it.amount.data.length
  itemDetailIndent ++ qtyRateDisplay ++ " " ++
    String.mk (List.replicate (max 0 amountPadding).toNat ' ') ++ it.amount

/-- All text lines printed for one item (name lines, detail line, blank
spacer). -/
def itemLines (it : Item) : List String := itemNameLines it ++ [itemDetailLine it, ""]

/-- JS `parseFloat(s) > 0` (false on NaN; the value of a `Dec` is
positive exactly when its numerator is). -/
def gtZeroStr (s : String) : Bool :=
  match jsParseFloat s with
  | some d => decide (0 < d.m)
  | none => false

/-- The `Math.ceil(w / 8)`. -/
def bytesPerRow (w : Nat) : Nat := (w + 7) / 8

/-- Scaled luminance `1000 * (0.299 r + 0.587 g + 0.114 b)` of pixel
`(x, y)` of the RGBA byte stream `data` (row-major, 4 bytes per pixel);
the source's threshold `luminance < 128` is `lumScaled < 128000` except
on the boundary triples of `lumRoundDown`. -/
def lumScaled (data : Nat → Nat) (displayWidth x y : Nat) : Nat :=
  let pixelIndex := (y * displayWidth + x) * 4
  299 * data pixelIndex + 587 * data (pixelIndex + 1) + 114 * data (pixelIndex + 2)

/-- The 8-bit RGB triples whose exact luminance is exactly the
threshold 128 but whose IEEE-double evaluation
`(0.299 * r + 0.587 * g) + 0.114 * b` lands strictly below 128, so the
source inks them.  Exhaustive over all 256^3 triples: every listed
triple satisfies `299 r + 587 g + 114 b = 128000`, and outside this
list the double comparison agrees with the exact one. -/
def lumRoundDown : List (Nat × Nat × Nat) :=
  [(8, 200, 72), (12, 190, 113), (19, 201, 38), (23, 191, 79),
   (24, 160, 236), (34, 192, 45), (38, 182, 86), (42, 172, 127),
   (49, 183, 52), (53, 173, 93), (57, 163, 134), (64, 174, 59),
   (72, 154, 141), (75, 175, 25), (79, 165, 66), (87, 145, 148),
   (90, 166, 32), (94, 156, 73), (98, 146, 114), (102, 136, 155),
   (105, 157, 39), (113, 137, 121), (116, 158, 5), (117, 127, 162),
   (120, 148, 46), (128, 128, 128), (131, 149, 12), (132, 118, 169),
   (135, 139, 53), (143, 119, 135), (146, 140, 19), (154, 120, 101),
   (158, 110, 142), (161, 131, 26), (169, 111, 108), (176, 122, 33),
   (177, 91, 190), (184, 102, 115), (195, 103, 81), (199, 93, 122),
   (202, 114, 6), (210, 94, 88), (225, 85, 95), (240, 76, 102),
   (251, 77, 68), (255, 67, 109)]

/-- The source's inking test `luminance < 128` on pixel `(x, y)`, with
the double arithmetic resolved: the exact comparison
`lumScaled < 128000`, plus the boundary triples whose double
evaluation falls just below the threshold. -/
def isInk (data : Nat → Nat) (displayWidth x y : Nat) : Bool :=
  decide (lumScaled data displayWidth x y < 128000) ||
    decide ((data ((y * displayWidth + x) * 4),
      data ((y * displayWidth + x) * 4 + 1),
      data ((y * displayWidth + x) * 4 + 2)) ∈ lumRoundDown)

/-- Body of the inner (`x`) loop of `printImage`'s packing pass: a dark
pixel ORs bit `7 - x % 8` (MSB first) into byte
`y * bytesPerRow + x / 8`; a light pixel leaves the bitmap alone. -/
def rasterStep (data : Nat → Nat) (displayWidth y : Nat) (arr2 : List Nat) (x : Nat) :
    List Nat :=
  if isInk data displayWidth x y then
    arr2.set (y * bytesPerRow displayWidth + x / 8)
      ((arr2.getD (y * bytesPerRow displayWidth + x / 8) 0) ||| (1 <<< (7 - x % 8)))
  else arr2

/-- One iteration of the outer (`y`) loop: pack row `y`. -/
def rasterRow (data : Nat → Nat) (displayWidth : Nat) (arr : List Nat) (y : Nat) :
    List Nat :=
  (List.range displayWidth).foldl (rasterStep data displayWidth y) arr

/-- The monochrome packing loop of `printImage`: a zero bitmap of
`bytesPerRow * height` bytes, filled row by row, pixel by pixel. -/
def rasterize (data : Nat → Nat) (displayWidth displayHeight : Nat) : List Nat :=
  (List.range displayHeight).foldl (rasterRow data displayWidth)
    (List.replicate (bytesPerRow displayWidth * displayHeight) 0)

/-- The full `GS v 0` raster block emitted by `printImage` once the
image has decoded at `displayWidth × displayHeight`. -/
def printImageCmds (data : Nat → Nat) (displayWidth displayHeight : Nat) : List Nat :=
  [0x1D, 0x76, 0x30, 0x00,
    bytesPerRow displayWidth % 256, bytesPerRow displayWidth / 256 % 256,
    displayHeight % 256, displayHeight / 256 % 256] ++
    rasterize data displayWidth displayHeight

/-- The `generateEscPosCommands(xmlData, settings)` of
src/src/generateEscPosCommands.js.  The asynchronous logo decode is
modelled as the input `logo` (the byte block the `printImage` promise
resolves with); fields the encoder reads but the extractor never sets
(`company.address`, `company.phone`, `amountInWords`,
`authorizedSignatory`, `termsAndConditions`) read as `undefined`, so
their `||` fallbacks are taken. -/
def generateEscPosCommands (xmlData : Option OrderDoc) (settings : Settings)
    (logo : List Nat) : List Nat :=
  match xmlData with
  | none => []
  | some d =>
    let sep := jsOrS settings.lineSeparator "-"
    [0x1B, 0x40] ++
    (if settings.logoUrl ≠ "" then setAlignmentB "center" ++ logo ++ printLineB ""
     else []) ++
    setAlignmentB settings.headerAlignment ++
    setBoldB true ++ setDoubleB true ++
    printLineB (jsOrS d.company.name "YOUR COMPANY NAME") ++
    setDoubleB false ++
    setBoldB false ++
    printLineB "Your Company Address" ++
    printLineB "" ++
    printLineB "" ++
    setBoldB true ++ printLineB (jsOrS d.heading "DOCUMENT") ++ setBoldB false ++
    printLineB "" ++
    setAlignmentB "left" ++
    printLineB ("Voucher No: " ++ jsOrS d.order.number "N/A") ++
    printLineB ("Date: " ++ jsOrS d.order.date "N/A") ++
    printLineB ("Entered By: " ++ jsOrS d.order.user "N/A") ++
    printLineB "" ++
    (if d.party.name ≠ "" then
      setBoldB true ++ printLineB "PARTY DETAILS:" ++ setBoldB false ++
      printLineB d.party.name ++
      (if d.party.address ≠ "" then
        ((jsSplit "\n" d.party.address).map printLineB).flatten
       else []) ++
      (if d.party.gstin ≠ "" then printLineB ("GSTIN: " ++ d.party.gstin) else []) ++
      printLineB ""
     else []) ++
    printSeparatorB sep CALCULATED_TOTAL_PRINT_WIDTH ++
    setAlignmentB "left" ++ setBoldB true ++
    printLineB (padEnd "S.No" SNO_WIDTH ++ " " ++
      padEnd "Item Name" ITEM_NAME_COL_WIDTH ++ " " ++
      padEnd "Qty/Rate" QTY_RATE_PART_WIDTH ++ " " ++
      padStart "Amount" AMOUNT_COL_WIDTH) ++
    setBoldB false ++
    printSeparatorB sep CALCULATED_TOTAL_PRINT_WIDTH ++
    (if d.items ≠ [] then
      (d.items.map (fun it => ((itemLines it).map printLineB).flatten)).flatten
     else printLineB "No items found.") ++
    printLineB "" ++
    printSeparatorB sep CALCULATED_TOTAL_PRINT_WIDTH ++
    setAlignmentB "right" ++
    printLineB ("Sub Total: " ++ jsOrS d.totals.subtotal "0.00") ++
    (if gtZeroStr d.totals.cgst then printLineB ("CGST: " ++ d.totals.cgst) else []) ++
    (if gtZeroStr d.totals.sgst then printLineB ("SGST: " ++ d.totals.sgst) else []) ++
    (if gtZeroStr d.totals.igst then printLineB ("IGST: " ++ d.totals.igst) else []) ++
    setBoldB true ++ setDoubleB true ++
    printLineB ("GRAND TOTAL: Rs. " ++ jsOrS d.totals.total "0.00") ++
    setDoubleB false ++ setBoldB false ++
    printLineB "" ++
    setAlignmentB "left" ++
    printLineB "Amount in Words:" ++
    setBoldB true ++ printLineB "Zero Only" ++ setBoldB false ++
    printLineB "" ++
    (if d.narration ≠ "" then
      printSeparatorB sep CALCULATED_TOTAL_PRINT_WIDTH ++
      setAlignmentB "left" ++ setBoldB true ++ printLineB "Narration:" ++ setBoldB false ++
      ((chunksOf CALCULATED_TOTAL_PRINT_WIDTH d.narration.data).map
        (fun c => printLineB (String.mk c))).flatten ++
      printLineB ""
     else []) ++
    printSeparatorB sep CALCULATED_TOTAL_PRINT_WIDTH ++
    setAlignmentB "center" ++ printLineB "Terms & Conditions:" ++
    setAlignmentB "left" ++
    printLineB "Goods once sold cannot be returned or exchanged." ++
    printLineB "" ++
    setAlignmentB "right" ++ printLineB "" ++ printLineB "" ++
    printLineB "Authorized Signatory" ++ printLineB "" ++
    [0x0A, 0x0A, 0x0A, 0x0A, 0x0A] ++
    [0x1D, 0x56, 0x00]

/-! Section: Concrete fixtures -/

/-- The spec's fixture voucher: one inventory entry with quantity
`"10 NOS"`, rate `"5.5/PCS"`, amount `"-55.00"`. -/
def fixtureVoucher : XNode := .elem "VOUCHER" [
  .elem "ALLINVENTORYENTRIES.LIST" [
    .elem "STOCKITEMNAME" [.text "Widget"],
    .elem "ACTUALQTY" [.text "10 NOS"],
    .elem "RATE" [.text "5.5/PCS"],
    .elem "AMOUNT" [.text "-55.00"]]]

/-- The fixture voucher wrapped in an envelope element. -/
def fixtureDoc : XNode := .elem "ENVELOPE" [fixtureVoucher]

/-- A voucher whose type is `"Sales"` (no ORDER / MATERIAL OUT /
DELIVERY substring). -/
def c2Voucher : XNode := .elem "VOUCHER" [.elem "VOUCHERTYPENAME" [.text "Sales"]]

/-- The `c2Voucher` wrapped in an envelope element. -/
def c2Doc : XNode := .elem "ENVELOPE" [c2Voucher]

/-- A `DOMParser` result carrying a `parsererror` element. -/
def parseErrorDoc : XNode := .elem "html" [.elem "parsererror" [.text "error"]]

/-- A well-formed document with no `VOUCHER` element. -/
def noVoucherDoc : XNode := .elem "ENVELOPE" [.elem "REQUESTDESC" []]

/-- A ledger entry named `SGST` whose amount text parses to `0`. -/
def c10EntrySgst : XNode := .elem "LEDGERENTRIES.LIST" [
  .elem "LEDGERNAME" [.text "SGST"],
  .elem "AMOUNT" [.text "0"]]

/-- A ledger entry named `SGST/UTGST` with amount `7.5`. -/
def c10EntryUtgst : XNode := .elem "LEDGERENTRIES.LIST" [
  .elem "LEDGERNAME" [.text "SGST/UTGST"],
  .elem "AMOUNT" [.text "7.5"]]

/-- A voucher carrying both the zero `SGST` entry and the
`SGST/UTGST` entry. -/
def c10Voucher : XNode := .elem "VOUCHER" [c10EntrySgst, c10EntryUtgst]

/-- The `c10Voucher` wrapped in an envelope element. -/
def c10Doc : XNode := .elem "ENVELOPE" [c10Voucher]

/-- A ledger entry flagged as the party ledger, amount `-123.456`. -/
def c4PartyEntry : XNode := .elem "LEDGERENTRIES.LIST" [
  .elem "LEDGERNAME" [.text "Acme Traders"],
  .elem "ISPARTYLEDGER" [.text "Yes"],
  .elem "AMOUNT" [.text "-123.456"]]

/-- A voucher with one item and a flagged party ledger entry. -/
def c4Voucher : XNode := .elem "VOUCHER" [
  .elem "ALLINVENTORYENTRIES.LIST" [
    .elem "STOCKITEMNAME" [.text "Widget"],
    .elem "ACTUALQTY" [.text "2 NOS"],
    .elem "RATE" [.text "5/PCS"],
    .elem "AMOUNT" [.text "10"]],
  c4PartyEntry]

/-- The `c4Voucher` wrapped in an envelope element. -/
def c4Doc : XNode := .elem "ENVELOPE" [c4Voucher]

/-- The default settings object of App.jsx (the fields the encoder
reads). -/
def defaultSettings : Settings :=
  { headerAlignment := "center", logoUrl := "", lineSeparator := "-" }

/-! Section: Claim theorems -/

/-- C5: on a well-formed voucher with a single inventory entry of
quantity `"10 NOS"`, rate `"5.5/PCS"`, amount `"-55.00"`, the extracted
item has qty `"10"` (unit token dropped), rate `"5.50"` (portion before
`/` fixed to two decimals) and amount `"55.00"` (absolute value fixed
to two decimals). -/
theorem C5_fixture_item :
    (parseTallyXML (fun _ => fixtureDoc) "").map OrderDoc.items =
      some [{ sNo := none, name := "Widget", qty := "10", rate := "5.50",
              amount := "55.00" }] := by decide

/-- C2 (code bug): for a voucher whose type string contains `SALES` but
none of the earlier patterns, the parser in src/src/parseTallyXML.js
yields the heading `DOCUMENT`, while the duplicate copy of the same
function in src/unnamed/part_002 — the behaviour the claim describes —
yields `SALES INVOICE`. -/
theorem C2_sales_heading_divergence :
    (parseTallyXML (fun _ => c2Doc) "").map OrderDoc.heading = some "DOCUMENT" ∧
    headingOf (jsToUpperCase "Sales") = "DOCUMENT" ∧
    headingOfPart002 (jsToUpperCase "Sales") = "SALES INVOICE" := by decide

/-- C8: the encoder is a pure function of the Order Document, the
settings and the decoded logo block, so two invocations on equal inputs
produce byte-identical output. -/
theorem C8_encode_deterministic (d1 d2 : Option OrderDoc) (s1 s2 : Settings)
    (l1 l2 : List Nat) (hd : d1 = d2) (hs : s1 = s2) (hl : l1 = l2) :
    generateEscPosCommands d1 s1 l1 = generateEscPosCommands d2 s2 l2 := by
  subst hd; subst hs; subst hl; rfl

/-- Witness for C8 at a concrete document, settings and logo. -/
theorem C8_encode_deterministic_witness :
    generateEscPosCommands (parseTallyXML (fun _ => fixtureDoc) "") defaultSettings [] =
      generateEscPosCommands (parseTallyXML (fun _ => fixtureDoc) "") defaultSettings [] :=
  C8_encode_deterministic _ _ _ _ _ _ rfl rfl rfl

/-- Shape of a successful extraction: the cleaned input parsed without
a `parsererror`, a `VOUCHER` element was found, and the result is the
completely built document of that voucher. -/
theorem parse_success_shape (dom : String → XNode) (s : String) (d : OrderDoc)
    (h : parseTallyXML dom s = some d) :
    hasParserError (dom (cleanXml s)) = false ∧
    ∃ v, querySelector "VOUCHER" (dom (cleanXml s)) = some v ∧
      d = buildOrder (dom (cleanXml s)) v := by
  simp only [parseTallyXML] at h
  cases hpe : hasParserError (dom (cleanXml s)) with
  | true => rw [hpe] at h; simp at h
  | false =>
    rw [hpe, if_neg Bool.false_ne_true] at h
    cases hv : querySelector "VOUCHER" (dom (cleanXml s)) with
    | none => rw [hv] at h; simp at h
    | some v =>
      rw [hv] at h
      simp at h
      exact ⟨rfl, v, rfl, h.symm⟩

/-- C3: extraction is all-or-nothing.  A `parsererror` in the parsed
form, or the absence of a `VOUCHER` element, yields the failure result
`none` (the only two exceptions of the function body, both converted by
the top-level catch); and a `some` result is always the completely
built document of the found voucher, never a partial one. -/
theorem C3_all_or_nothing (dom : String → XNode) (s : String) :
    (hasParserError (dom (cleanXml s)) = true → parseTallyXML dom s = none) ∧
    (querySelector "VOUCHER" (dom (cleanXml s)) = none → parseTallyXML dom s = none) ∧
    (∀ d, parseTallyXML dom s = some d →
      hasParserError (dom (cleanXml s)) = false ∧
      ∃ v, querySelector "VOUCHER" (dom (cleanXml s)) = some v ∧
        d = buildOrder (dom (cleanXml s)) v) := by
  refine ⟨?_, ?_, fun d h => parse_success_shape dom s d h⟩ <;> simp only [parseTallyXML]
  · intro h; simp [h]
  · intro h
    cases hpe : hasParserError (dom (cleanXml s)) <;> simp [hpe, h]

/-- Witness for C3: a parser-error input and a voucherless input both
yield `none`, and the fixture parse succeeds completely. -/
theorem C3_all_or_nothing_witness :
    parseTallyXML (fun _ => parseErrorDoc) "<bad" = none ∧
    parseTallyXML (fun _ => noVoucherDoc) "<ENVELOPE/>" = none ∧
    (hasParserError fixtureDoc = false ∧
      ∃ v, querySelector "VOUCHER" fixtureDoc = some v ∧
        buildOrder fixtureDoc fixtureVoucher = buildOrder fixtureDoc v) :=
  ⟨(C3_all_or_nothing (fun _ => parseErrorDoc) "<bad").1 rfl,
   (C3_all_or_nothing (fun _ => noVoucherDoc) "<ENVELOPE/>").2.1 rfl,
   (C3_all_or_nothing (fun _ => fixtureDoc) "").2.2
     (buildOrder fixtureDoc fixtureVoucher) rfl⟩

/-- C4: the extracted total is the absolute two-decimal amount of the
first ledger entry flagged `ISPARTYLEDGER = Yes` when one exists, and
otherwise the two-decimal rendering of the sum of the extracted item
amounts; the subtotal is always that sum, independent of the source. -/
theorem C4_total_resolution (xmlDoc voucher : XNode) :
    (∀ e, (querySelectorAll "LEDGERENTRIES.LIST" voucher).find?
        (fun n => getS "ISPARTYLEDGER" n == "Yes") = some e →
      (buildOrder xmlDoc voucher).totals.total =
        jsToFixed2 (jsAbs (if getS "AMOUNT" e = "" then some 0
          else jsParseFloat (getS "AMOUNT" e)))) ∧
    ((querySelectorAll "LEDGERENTRIES.LIST" voucher).find?
        (fun n => getS "ISPARTYLEDGER" n == "Yes") = none →
      (buildOrder xmlDoc voucher).totals.total =
        jsToFixed2 ((buildOrder xmlDoc voucher).items.foldl
          (fun sum i => jsAdd sum (jsParseFloat i.amount)) (some 0))) ∧
    (buildOrder xmlDoc voucher).totals.subtotal =
      jsToFixed2 ((buildOrder xmlDoc voucher).items.foldl
        (fun sum i => jsAdd sum (jsParseFloat i.amount)) (some 0)) := by
  refine ⟨?_, ?_, ?_⟩
  · intro e he; simp only [buildOrder]; rw [he]
  · intro h0; simp only [buildOrder]; rw [h0]
  · simp only [buildOrder]

/-- Witness for C4: a voucher with a flagged party entry takes its
absolute amount (`|-123.456|` → `"123.46"`, not the item subtotal
`"10.00"`), and the fixture voucher without one falls back to the item
subtotal. -/
theorem C4_total_resolution_witness :
    ((buildOrder c4Doc c4Voucher).totals.total = "123.46" ∧
      (buildOrder c4Doc c4Voucher).totals.subtotal = "10.00") ∧
    (buildOrder fixtureDoc fixtureVoucher).totals.total =
      jsToFixed2 ((buildOrder fixtureDoc fixtureVoucher).items.foldl
        (fun sum i => jsAdd sum (jsParseFloat i.amount)) (some 0)) :=
  ⟨⟨((C4_total_resolution c4Doc c4Voucher).1 c4PartyEntry rfl).trans (by decide),
    ((C4_total_resolution c4Doc c4Voucher).2.2).trans (by decide)⟩,
   (C4_total_resolution fixtureDoc fixtureVoucher).2.1 rfl⟩

/-- C10: the SGST fallback is value-based.  If a ledger entry named
`SGST` exists but the SGST lookup is falsy (its amount parses to `0` or
NaN), and an entry named `SGST/UTGST` exists, the extracted sgst is the
two-decimal rendering of the `SGST/UTGST` lookup, not `0`. -/
theorem C10_sgst_value_fallback (xmlDoc voucher e e2 : XNode)
    (_hs : (querySelectorAll "LEDGERENTRIES.LIST" voucher).find?
        (fun n => getS "LEDGERNAME" n == "SGST") = some e)
    (hz : jsTruthy (findAmount (querySelectorAll "LEDGERENTRIES.LIST" voucher)
        "SGST") = false)
    (_h2 : (querySelectorAll "LEDGERENTRIES.LIST" voucher).find?
        (fun n => getS "LEDGERNAME" n == "SGST/UTGST") = some e2) :
    (buildOrder xmlDoc voucher).totals.sgst =
      jsToFixed2 (findAmount (querySelectorAll "LEDGERENTRIES.LIST" voucher)
        "SGST/UTGST") := by
  simp only [buildOrder, hz]
  rw [if_neg Bool.false_ne_true]

/-- Witness for C10: with a zero-amount `SGST` entry and an
`SGST/UTGST` entry of `7.5`, the extracted sgst is `"7.50"`. -/
theorem C10_sgst_value_fallback_witness :
    (buildOrder c10Doc c10Voucher).totals.sgst = "7.50" :=
  (C10_sgst_value_fallback c10Doc c10Voucher c10EntrySgst c10EntryUtgst
    rfl rfl rfl).trans (by decide)

/-- Every item produced by `parseItems` has no serial-number property,
and the first printed line of its block therefore starts with the
stringified `undefined`. -/
theorem parseItems_undefined_line (voucher : XNode) (tag : String) :
    ∀ it ∈ parseItems voucher tag, it.sNo = none ∧
      (itemLines it).headD "" =
        "undefined" ++ " " ++ strTake it.name ITEM_NAME_COL_WIDTH := by
  intro it hit
  simp only [parseItems, List.mem_map] at hit
  obtain ⟨el, -, rfl⟩ := hit
  exact ⟨rfl, rfl⟩

/-- The item list of a built document is the concatenation of the three
inventory-entry lists. -/
theorem buildOrder_items (xmlDoc voucher : XNode) :
    (buildOrder xmlDoc voucher).items =
      parseItems voucher "ALLINVENTORYENTRIES.LIST" ++
        parseItems voucher "INVENTORYENTRIESIN.LIST" ++
        parseItems voucher "INVENTORYENTRIESOUT.LIST" := rfl

/-- C9: the extractor constructs items with only name/qty/rate/amount,
so for every successfully extracted document every encoded item row's
serial-number column carries the literal string `undefined` (the
encoder stringifies the absent `item.sNo`). -/
theorem C9_undefined_serial (dom : String → XNode) (s : String) (d : OrderDoc)
    (h : parseTallyXML dom s = some d) :
    ∀ it ∈ d.items, it.sNo = none ∧
      (itemLines it).headD "" =
        "undefined" ++ " " ++ strTake it.name ITEM_NAME_COL_WIDTH := by
  obtain ⟨-, v, -, rfl⟩ := parse_success_shape dom s d h
  intro it hit
  rw [buildOrder_items] at hit
  rw [List.mem_append, List.mem_append] at hit
  rcases hit with (h1 | h1) | h1 <;> exact parseItems_undefined_line _ _ _ h1

/-- Witness for C9: the fixture parse yields the `Widget` item, whose
printed block starts with `undefined`. -/
theorem C9_undefined_serial_witness :
    (Item.mk none "Widget" "10" "5.50" "55.00").sNo = none ∧
    (itemLines (Item.mk none "Widget" "10" "5.50" "55.00")).headD "" =
      "undefined" ++ " " ++ strTake (Item.mk none "Widget" "10" "5.50" "55.00").name
        ITEM_NAME_COL_WIDTH :=
  C9_undefined_serial (fun _ => fixtureDoc) ""
    (buildOrder fixtureDoc fixtureVoucher) (by decide)
    (Item.mk none "Widget" "10" "5.50" "55.00") (by decide)

/-- The `chunksOfAux` on the empty list, any fuel. -/
theorem chunksOfAux_nil (w fuel : Nat) : chunksOfAux w fuel [] = [] := by
  cases fuel <;> rfl

/-- For positive width the result of `chunksOfAux` does not depend on
the fuel, as long as the fuel covers the list length. -/
theorem chunksOfAux_fuel (w : Nat) (hw : 0 < w) :
    ∀ fuel fuel' (l : List Char), l.length ≤ fuel → l.length ≤ fuel' →
      chunksOfAux w fuel l = chunksOfAux w fuel' l := by
  intro fuel
  induction fuel with
  | zero =>
    intro fuel' l hl _
    have : l = [] := List.eq_nil_of_length_eq_zero (Nat.le_zero.mp hl)
    subst this
    rw [chunksOfAux_nil, chunksOfAux_nil]
  | succ n ih =>
    intro fuel' l hl hl'
    cases l with
    | nil => rw [chunksOfAux_nil, chunksOfAux_nil]
    | cons c cs =>
      cases fuel' with
      | zero => simp at hl'
      | succ n' =>
        show ((c :: cs).take w) :: chunksOfAux w n ((c :: cs).drop w) =
          ((c :: cs).take w) :: chunksOfAux w n' ((c :: cs).drop w)
        have hd : ((c :: cs).drop w).length = cs.length + 1 - w := by
          simp [List.length_drop]
        congr 1
        apply ih
        · rw [hd]; simp at hl; omega
        · rw [hd]; simp at hl'; omega

/-- One unfolding step of the wrapping loop for positive width. -/
theorem chunksOf_cons (w : Nat) (hw : 0 < w) (c : Char) (cs : List Char) :
    chunksOf w (c :: cs) = ((c :: cs).take w) :: chunksOf w ((c :: cs).drop w) := by
  show chunksOfAux w (cs.length + 1) (c :: cs) = _
  show ((c :: cs).take w) :: chunksOfAux w cs.length ((c :: cs).drop w) = _
  congr 1
  apply chunksOfAux_fuel w hw
  · simp [List.length_drop]; omega
  · exact Nat.le_refl _

/-- A non-empty list no longer than the width is a single chunk. -/
theorem chunksOf_short (w : Nat) (l : List Char) (h0 : l ≠ [])
    (hle : l.length ≤ w) : chunksOf w l = [l] := by
  cases l with
  | nil => exact absurd rfl h0
  | cons c cs =>
    have hw : 0 < w := by simp at hle; omega
    rw [chunksOf_cons w hw, List.take_of_length_le hle,
      List.drop_eq_nil_of_le hle]
    rfl

/-- A list of length in `(w, 2w]` wraps into exactly two chunks. -/
theorem chunksOf_two (w : Nat) (l : List Char) (hlt : w < l.length)
    (hle : l.length ≤ 2 * w) : chunksOf w l = [l.take w, l.drop w] := by
  have hw : 0 < w := by omega
  cases l with
  | nil => simp at hlt
  | cons c cs =>
    simp only [List.length_cons] at hlt hle
    rw [chunksOf_cons w hw]
    congr 1
    apply chunksOf_short
    · apply List.ne_nil_of_length_pos
      simp only [List.length_drop, List.length_cons]
      omega
    · simp only [List.length_drop, List.length_cons]
      omega

/-- C6 (amended): an item name of length `2 * W + 3` (where `W` is the
item-name column width) prints as exactly three name lines: the primary
line carrying the serial column, then continuations of `W` and `3`
characters, each indented by `SNO_WIDTH + 1` spaces (the serial column
plus its one-space separator), which is the column where the name
starts on the primary line. -/
theorem C6_wrap_three_lines (it : Item)
    (h : it.name.data.length = 2 * ITEM_NAME_COL_WIDTH + 3) :
    itemNameLines it =
      [padEnd (jsToString it.sNo) SNO_WIDTH ++ " " ++
         strTake it.name ITEM_NAME_COL_WIDTH,
       String.mk (List.replicate (SNO_WIDTH + 1) ' ') ++
         strTake (strDrop it.name ITEM_NAME_COL_WIDTH) ITEM_NAME_COL_WIDTH,
       String.mk (List.replicate (SNO_WIDTH + 1) ' ') ++
         strDrop it.name (2 * ITEM_NAME_COL_WIDTH)] ∧
    (strTake (strDrop it.name ITEM_NAME_COL_WIDTH) ITEM_NAME_COL_WIDTH).data.length =
      ITEM_NAME_COL_WIDTH ∧
    (strDrop it.name (2 * ITEM_NAME_COL_WIDTH)).data.length = 3 := by
  simp only [ITEM_NAME_COL_WIDTH] at h ⊢
  have hdrop : (it.name.data.drop 20).length = 23 := by
    rw [List.length_drop, h]
  refine ⟨?_, ?_, ?_⟩
  · simp only [itemNameLines, ITEM_NAME_COL_WIDTH]
    rw [if_pos (by omega)]
    rw [chunksOf_two 20 _ (by omega) (by omega)]
    simp only [List.map]
    simp only [strTake, strDrop, List.drop_drop]
  · simp only [strTake, strDrop, List.length_take, hdrop]
    omega
  · simp only [strDrop, List.length_drop, h]

/-- The `c6` item: serial number `"1"`, a 43-character name. -/
def c6CexItem : Item :=
  { sNo := some "1", name := String.mk (List.replicate 43 'A'), qty := "1",
    rate := "2.00", amount := "2.00" }

/-- C6 counterexample: the continuation lines are indented by
`SNO_WIDTH + 1 = 4` spaces, not by the S.No column width `SNO_WIDTH = 3`
the claim states. -/
theorem C6_indent_counterexample :
    (((itemNameLines c6CexItem).getD 1 "").data.takeWhile
      (fun c => c == ' ')).length = SNO_WIDTH + 1 ∧
    SNO_WIDTH + 1 ≠ SNO_WIDTH := by decide

/-- String concatenation concatenates the character lists. -/
theorem string_data_append (a b : String) : (a ++ b).data = a.data ++ b.data := rfl

/-- Witness for the amended C6 at the concrete 43-character name. -/
theorem C6_wrap_three_lines_witness :
    itemNameLines c6CexItem =
      [padEnd (jsToString c6CexItem.sNo) SNO_WIDTH ++ " " ++
         strTake c6CexItem.name ITEM_NAME_COL_WIDTH,
       String.mk (List.replicate (SNO_WIDTH + 1) ' ') ++
         strTake (strDrop c6CexItem.name ITEM_NAME_COL_WIDTH) ITEM_NAME_COL_WIDTH,
       String.mk (List.replicate (SNO_WIDTH + 1) ' ') ++
         strDrop c6CexItem.name (2 * ITEM_NAME_COL_WIDTH)] ∧
    (strTake (strDrop c6CexItem.name ITEM_NAME_COL_WIDTH)
      ITEM_NAME_COL_WIDTH).data.length = ITEM_NAME_COL_WIDTH ∧
    (strDrop c6CexItem.name (2 * ITEM_NAME_COL_WIDTH)).data.length = 3 :=
  C6_wrap_three_lines c6CexItem (by decide)

/-! Section: Raster lemmas (C7) -/

/-- The `getD` after setting the same position. -/
theorem getD_set_self : ∀ (l : List Nat) (i a : Nat), i < l.length →
    (l.set i a).getD i 0 = a := by
  intro l
  induction l with
  | nil => intro i a h; simp at h
  | cons x t ih =>
    intro i a h
    cases i with
    | zero => rfl
    | succ n => exact ih n a (by simpa using h)

/-- The `getD` after setting a different position. -/
theorem getD_set_ne : ∀ (l : List Nat) (i j a : Nat), i ≠ j →
    (l.set i a).getD j 0 = l.getD j 0 := by
  intro l
  induction l with
  | nil => intro i j a _; rfl
  | cons x t ih =>
    intro i j a h
    cases i with
    | zero =>
      cases j with
      | zero => exact absurd rfl h
      | succ m => rfl
    | succ n =>
      cases j with
      | zero => rfl
      | succ m => exact ih n m a (fun he => h (by rw [he]))

/-- Every position of a zero-replicate reads zero. -/
theorem getD_replicate : ∀ (n j : Nat), (List.replicate n (0 : Nat)).getD j 0 = 0 := by
  intro n
  induction n with
  | zero => intro j; rfl
  | succ m ih =>
    intro j
    cases j with
    | zero => rfl
    | succ k => exact ih k

/-- A fold whose step preserves length preserves length. -/
theorem foldl_length {α : Type} (f : List Nat → α → List Nat)
    (h : ∀ acc a, (f acc a).length = acc.length) :
    ∀ (l : List α) (init : List Nat), (l.foldl f init).length = init.length := by
  intro l
  induction l with
  | nil => intro init; rfl
  | cons x t ih =>
    intro init
    rw [List.foldl_cons, ih, h]

/-- A fold whose step fixes the accumulator on every element is the
identity. -/
theorem foldl_fix {α : Type} (f : List Nat → α → List Nat) :
    ∀ (l : List α) (init : List Nat), (∀ acc a, a ∈ l → f acc a = acc) →
      l.foldl f init = init := by
  intro l
  induction l with
  | nil => intro init _; rfl
  | cons x t ih =>
    intro init h
    rw [List.foldl_cons, h init x (by simp)]
    exact ih init (fun acc a ha => h acc a (by simp [ha]))

/-- A pixel column indexes a byte inside the row. -/
theorem div8_lt (W x : Nat) (h : x < W) : x / 8 < bytesPerRow W := by
  unfold bytesPerRow
  omega

/-- A row/byte pair indexes inside the bitmap. -/
theorem rowcol_lt (bpr H y b : Nat) (hy : y < H) (hb : b < bpr) :
    y * bpr + b < bpr * H := by
  calc y * bpr + b < y * bpr + bpr := by omega
    _ = (y + 1) * bpr := by ring
    _ ≤ H * bpr := Nat.mul_le_mul_right _ hy
    _ = bpr * H := Nat.mul_comm _ _

/-- Row-major byte indices decompose uniquely. -/
theorem rowcol_inj (bpr y1 b1 y2 b2 : Nat) (h1 : b1 < bpr) (h2 : b2 < bpr)
    (he : y1 * bpr + b1 = y2 * bpr + b2) : y1 = y2 := by
  have hbpr : 0 < bpr := by omega
  have e1 : (y1 * bpr + b1) / bpr = y1 := by
    rw [Nat.mul_comm y1 bpr, Nat.mul_add_div hbpr, Nat.div_eq_of_lt h1]
    omega
  have e2 : (y2 * bpr + b2) / bpr = y2 := by
    rw [Nat.mul_comm y2 bpr, Nat.mul_add_div hbpr, Nat.div_eq_of_lt h2]
    omega
  rw [← e1, ← e2, he]

/-- Every boundary triple has exact scaled luminance equal to the
threshold. -/
theorem lumRoundDown_sum :
    ∀ t ∈ lumRoundDown, 299 * t.1 + 587 * t.2.1 + 114 * t.2.2 = 128000 := by
  decide

/-- A pixel strictly below the exact threshold is inked. -/
theorem isInk_true_of_lt (data : Nat → Nat) (W x y : Nat)
    (h : lumScaled data W x y < 128000) : isInk data W x y = true := by
  unfold isInk
  rw [decide_eq_true h, Bool.true_or]

/-- A pixel strictly above the exact threshold is not inked: the
boundary list only holds triples summing to exactly the threshold. -/
theorem isInk_false_of_gt (data : Nat → Nat) (W x y : Nat)
    (h : 128000 < lumScaled data W x y) : isInk data W x y = false := by
  have hnm : (data ((y * W + x) * 4), data ((y * W + x) * 4 + 1),
      data ((y * W + x) * 4 + 2)) ∉ lumRoundDown := by
    intro hm
    have hsum : 299 * data ((y * W + x) * 4) + 587 * data ((y * W + x) * 4 + 1) +
        114 * data ((y * W + x) * 4 + 2) = 128000 := lumRoundDown_sum _ hm
    have hl : lumScaled data W x y =
        299 * data ((y * W + x) * 4) + 587 * data ((y * W + x) * 4 + 1) +
          114 * data ((y * W + x) * 4 + 2) := rfl
    omega
  unfold isInk
  rw [decide_eq_false (by omega : ¬ lumScaled data W x y < 128000),
    decide_eq_false hnm]
  rfl

/-- A dark pixel's step sets its bit. -/
theorem rasterStep_dark (data : Nat → Nat) (W y : Nat) (arr2 : List Nat) (x : Nat)
    (h : lumScaled data W x y < 128000) :
    rasterStep data W y arr2 x = arr2.set (y * bytesPerRow W + x / 8)
      ((arr2.getD (y * bytesPerRow W + x / 8) 0) ||| (1 <<< (7 - x % 8))) := by
  unfold rasterStep
  rw [isInk_true_of_lt data W x y h, if_pos rfl]

/-- One row iteration is the fold over the pixel columns. -/
theorem rasterRow_eq (data : Nat → Nat) (W : Nat) (arr : List Nat) (y : Nat) :
    rasterRow data W arr y = (List.range W).foldl (rasterStep data W y) arr := rfl

/-- Bit-level characterization of packing one all-dark row: after the
first `n` pixels of row `y`, byte `j` carries its old bits plus one bit
for every processed pixel that maps to it. -/
theorem rasterRow_black (data : Nat → Nat) (W H y : Nat) (hy : y < H)
    (hblack : ∀ x, x < W → lumScaled data W x y < 128000) :
    ∀ n, n ≤ W → ∀ (arr : List Nat), arr.length = bytesPerRow W * H →
      (((List.range n).foldl (rasterStep data W y) arr).length =
        bytesPerRow W * H) ∧
      ∀ j p, j < bytesPerRow W * H →
        ((((List.range n).foldl (rasterStep data W y) arr).getD j 0).testBit p = true ↔
          ((arr.getD j 0).testBit p = true ∨
            ∃ x, x < n ∧ y * bytesPerRow W + x / 8 = j ∧ 7 - x % 8 = p)) := by
  intro n
  induction n with
  | zero =>
    intro _ arr harr
    refine ⟨harr, ?_⟩
    intro j p _
    simp
  | succ m ih =>
    intro hn arr harr
    obtain ⟨ihlen, ihbit⟩ := ih (by omega) arr harr
    rw [show m + 1 = Nat.succ m from rfl, List.range_succ, List.foldl_append,
      List.foldl_cons, List.foldl_nil]
    have hcond : lumScaled data W m y < 128000 := hblack m (by omega)
    have h8 : m / 8 < bytesPerRow W := div8_lt W m (by omega)
    have hidx : y * bytesPerRow W + m / 8 < bytesPerRow W * H :=
      rowcol_lt _ _ _ _ hy h8
    constructor
    · rw [rasterStep_dark data W y _ m hcond, List.length_set]
      exact ihlen
    · intro j p hj
      rw [rasterStep_dark data W y _ m hcond]
      by_cases hje : y * bytesPerRow W + m / 8 = j
      · subst hje
        rw [getD_set_self _ _ _ (by rw [ihlen]; exact hidx)]
        rw [Nat.testBit_lor, Nat.one_shiftLeft, Nat.testBit_two_pow]
        rw [Bool.or_eq_true, ihbit _ p hidx]
        constructor
        · rintro ((h1 | ⟨x, hx1, hx2, hx3⟩) | h1)
          · exact Or.inl h1
          · exact Or.inr ⟨x, by omega, hx2, hx3⟩
          · exact Or.inr ⟨m, by omega, rfl, of_decide_eq_true h1⟩
        · rintro (h1 | ⟨x, hx1, hx2, hx3⟩)
          · exact Or.inl (Or.inl h1)
          · rcases Nat.lt_succ_iff_lt_or_eq.mp hx1 with h2 | h2
            · exact Or.inl (Or.inr ⟨x, h2, hx2, hx3⟩)
            · subst h2
              exact Or.inr (decide_eq_true hx3)
      · rw [getD_set_ne _ _ _ _ hje, ihbit j p hj]
        constructor
        · rintro (h1 | ⟨x, hx1, hx2, hx3⟩)
          · exact Or.inl h1
          · exact Or.inr ⟨x, by omega, hx2, hx3⟩
        · rintro (h1 | ⟨x, hx1, hx2, hx3⟩)
          · exact Or.inl h1
          · refine Or.inr ⟨x, ?_, hx2, hx3⟩
            rcases Nat.lt_succ_iff_lt_or_eq.mp hx1 with h2 | h2
            · exact h2
            · subst h2
              exact absurd hx2 hje

/-- Bit-level characterization of the whole all-dark packing pass after
`m` rows. -/
theorem rasterize_black_rows (data : Nat → Nat) (W H : Nat)
    (hblack : ∀ x y, x < W → y < H → lumScaled data W x y < 128000) :
    ∀ m, m ≤ H →
      (((List.range m).foldl (rasterRow data W)
          (List.replicate (bytesPerRow W * H) 0)).length = bytesPerRow W * H) ∧
      ∀ y b p, y < H → b < bytesPerRow W →
        ((((List.range m).foldl (rasterRow data W)
            (List.replicate (bytesPerRow W * H) 0)).getD
              (y * bytesPerRow W + b) 0).testBit p = true ↔
          (y < m ∧ ∃ x, x < W ∧ x / 8 = b ∧ 7 - x % 8 = p)) := by
  intro m
  induction m with
  | zero =>
    intro _
    refine ⟨by simp, ?_⟩
    intro y b p _ _
    rw [List.range_zero, List.foldl_nil, getD_replicate, Nat.zero_testBit]
    simp
  | succ k ih =>
    intro hk
    obtain ⟨ihlen, ihbit⟩ := ih (by omega)
    rw [show k + 1 = Nat.succ k from rfl, List.range_succ, List.foldl_append,
      List.foldl_cons, List.foldl_nil]
    obtain ⟨hlen2, hbit2⟩ :=
      rasterRow_black data W H k (by omega)
        (fun x hx => hblack x k hx (by omega)) W (Nat.le_refl W)
        ((List.range k).foldl (rasterRow data W)
          (List.replicate (bytesPerRow W * H) 0)) ihlen
    constructor
    · exact hlen2
    · intro y b p hy hb
      have hj : y * bytesPerRow W + b < bytesPerRow W * H :=
        rowcol_lt _ _ _ _ hy hb
      rw [rasterRow_eq, hbit2 (y * bytesPerRow W + b) p hj, ihbit y b p hy hb]
      by_cases hyk : y = k
      · subst hyk
        constructor
        · rintro (⟨h1, -⟩ | ⟨x, hx1, hx2, hx3⟩)
          · exact absurd h1 (lt_irrefl y)
          · exact ⟨by omega, x, hx1, Nat.add_left_cancel hx2, hx3⟩
        · rintro ⟨-, x, hx1, hx2, hx3⟩
          exact Or.inr ⟨x, hx1, by rw [hx2], hx3⟩
      · constructor
        · rintro (⟨h1, hex⟩ | ⟨x, hx1, hx2, hx3⟩)
          · exact ⟨by omega, hex⟩
          · exact absurd (rowcol_inj (bytesPerRow W) k (x / 8) y b
              (div8_lt W x hx1) hb hx2) (fun he => hyk he.symm)
        · rintro ⟨h1, hex⟩
          exact Or.inl ⟨by omega, hex⟩

/-- C7 (amended): on a source whose every pixel is strictly lighter
than the threshold the packed bitmap is exactly
`bytesPerRow * height` zero bytes (at luminance exactly 128 the
source's floating-point comparison decides, and on the `lumRoundDown`
triples it inks); on an all-dark source every used bit
(MSB first, 8 pixels per byte) is 1 while the trailing pad bits of the
last byte of each row stay 0 — bit `p` of byte `b` of a row is set
exactly when its pixel column `8 b + (7 - p)` exists. -/
theorem C7_raster_bitmap (data : Nat → Nat) (W H : Nat) :
    ((∀ x y, x < W → y < H → 128000 < lumScaled data W x y) →
      rasterize data W H = List.replicate (bytesPerRow W * H) 0) ∧
    ((∀ x y, x < W → y < H → lumScaled data W x y < 128000) →
      (rasterize data W H).length = bytesPerRow W * H ∧
      ∀ y b p, y < H → b < bytesPerRow W → p < 8 →
        ((rasterize data W H).getD (y * bytesPerRow W + b) 0).testBit p =
          decide (8 * b + (7 - p) < W)) := by
  constructor
  · intro hw
    unfold rasterize
    apply foldl_fix
    intro arr y hy
    unfold rasterRow
    apply foldl_fix
    intro arr2 x hx
    unfold rasterStep
    rw [isInk_false_of_gt data W x y
      (hw x y (List.mem_range.mp hx) (List.mem_range.mp hy))]
    rfl
  · intro hb
    obtain ⟨hlen, hbit⟩ := rasterize_black_rows data W H hb H (Nat.le_refl H)
    refine ⟨hlen, ?_⟩
    intro y b p hy hb8 hp
    have hiff := hbit y b p hy hb8
    have hcond : (y < H ∧ ∃ x, x < W ∧ x / 8 = b ∧ 7 - x % 8 = p) ↔
        (8 * b + (7 - p) < W) := by
      constructor
      · rintro ⟨-, x, hx1, hx2, hx3⟩
        omega
      · intro hlt
        exact ⟨hy, 8 * b + (7 - p), hlt, by omega, by omega⟩
    by_cases hdec : 8 * b + (7 - p) < W
    · rw [decide_eq_true hdec]
      exact hiff.mpr (hcond.mpr hdec)
    · rw [decide_eq_false hdec]
      rw [← Bool.not_eq_true]
      intro ht
      exact hdec (hcond.mp (hiff.mp ht))

/-- Witness for C7: a 3×1 all-white image gives the single zero byte;
a 3×1 all-black image sets the three high bits of its one byte and
leaves the five pad bits clear. -/
theorem C7_raster_bitmap_witness :
    rasterize (fun _ => 255) 3 1 = List.replicate (bytesPerRow 3 * 1) 0 ∧
    ((rasterize (fun _ => 0) 3 1).getD (0 * bytesPerRow 3 + 0) 0).testBit 7 =
      decide (8 * 0 + (7 - 7) < 3) ∧
    ((rasterize (fun _ => 0) 3 1).getD (0 * bytesPerRow 3 + 0) 0).testBit 0 =
      decide (8 * 0 + (7 - 0) < 3) :=
  ⟨(C7_raster_bitmap (fun _ => 255) 3 1).1
      (by intro x y _ _; norm_num [lumScaled]),
   (((C7_raster_bitmap (fun _ => 0) 3 1).2
      (by intro x y _ _; norm_num [lumScaled])).2 0 0 7 (by omega) (by decide)
        (by omega)),
   (((C7_raster_bitmap (fun _ => 0) 3 1).2
      (by intro x y _ _; norm_num [lumScaled])).2 0 0 0 (by omega) (by decide)
        (by omega))⟩

/-- A 1-wide RGBA stream whose single pixel is the boundary triple
`(8, 200, 72)` (alpha 255): exact scaled luminance exactly 128000, yet
the source's double evaluation `(0.299*8 + 0.587*200) + 0.114*72`
yields 127.99999999999999 and inks the pixel. -/
def c7BoundaryData : Nat → Nat := fun i =>
  if i % 4 = 0 then 8 else if i % 4 = 1 then 200 else if i % 4 = 2 then 72 else 255

/-- Counterexample for the original all-light reading of C7: a pixel at
luminance exactly 128 (a `lumRoundDown` triple) is not below the exact
threshold, yet the packed bitmap is `[128]` — its bit is set — rather
than the zero bitmap. -/
theorem C7_boundary_counterexample :
    lumScaled c7BoundaryData 1 0 0 = 128000 ∧
    rasterize c7BoundaryData 1 1 = [128] ∧
    rasterize c7BoundaryData 1 1 ≠ List.replicate (bytesPerRow 1 * 1) 0 := by
  decide

end Tally
